import Mathlib

/-!
Shallow embedding of the two source variants of the bevy instancing example
(`src/src/main.rs`, the direct-buffer variant, and `src/v0.12.1/src/main.rs`,
the parent/child variant), together with proofs about the per-frame pipeline:
instance aggregation (`prepare_buffer`), render queue building (`queue_custom`),
pipeline specialization (`CustomPipeline::specialize` and the specialization
cache), GPU buffer preparation (`prepare_instance_buffers`) and the draw
command sequencer (`DrawMeshInstanced::render`).

Scalar convention: an `f32` of the source is modelled by `Int`, its exact
mathematical value (no claim performs float arithmetic on these values; they
are only copied, compared and serialized).  The IEEE-754 bit encoding used by
byte-level serialization is an explicit parameter `enc : Int → Nat` of the
serialization functions.  A Rust panic site (`unwrap`) is modelled by an
`Option` result, `none` meaning the panic.
-/

namespace Instancing

/-- Model of an ECS entity id. -/
abbrev Entity := Nat

/-- Model of an `f32` value (exact value, see the file header). -/
abbrev F32 := Int

/-- Model of `bevy::math::Vec3` (three `f32` components). -/
structure Vec3 where
  x : F32
  y : F32
  z : F32
deriving DecidableEq, Repr

/-- Model of an rgba color `[f32; 4]` as stored in the components. -/
structure Color4 where
  r : F32
  g : F32
  b : F32
  a : F32
deriving DecidableEq, Repr

/-- Model of `bevy::math::Quat` (only carried around, never read by the core). -/
structure Quat where
  x : F32
  y : F32
  z : F32
  w : F32
deriving DecidableEq, Repr

/-- Model of `bevy::transform::components::Transform`: the aggregator reads only
`translation`; `rotation` and `scale` are carried for fidelity. -/
structure Transform where
  translation : Vec3
  rotation : Quat
  scale : Vec3
deriving DecidableEq, Repr

/-- Model of `InstanceData` (`#[repr(C)] struct InstanceData { position: Vec3,
scale: f32, color: [f32; 4] }`), identical in both variants. -/
structure InstanceData where
  position : Vec3
  scale : F32
  color : Color4
deriving DecidableEq, Repr

/-- Model of the `InstancedMaterialChild` component of the parent/child variant
(`color: [f32; 4]`, `scale: f32`). -/
structure InstancedMaterialChild where
  color : Color4
  scale : F32
deriving DecidableEq, Repr

/-- Model of the `InstancedMaterialHost` component of the parent/child variant:
`buffer: Vec<InstanceData>`. -/
structure InstancedMaterialHost where
  buffer : List InstanceData
deriving DecidableEq, Repr

/-- The component state `prepare_buffer` queries per child entity: `childComp e`
is the `InstancedMaterialChild` component of entity `e` (`none` when the entity
does not exist or lacks the component) and `transformComp e` likewise for the
`Transform` component. -/
structure ChildWorld where
  childComp : Entity → Option InstancedMaterialChild
  transformComp : Entity → Option Transform

/-- Model of `instanced_material_children.get(entity)`: the query
`Query<(&InstancedMaterialChild, &Transform)>` resolves an entity exactly when
it exists and carries both components. -/
def childQueryGet (w : ChildWorld) (e : Entity) :
    Option (InstancedMaterialChild × Transform) :=
  match w.childComp e, w.transformComp e with
  | some c, some t => some (c, t)
  | _, _ => none

/-- Resolve a whole list through an `Option`-returning lookup, failing as soon
as one element fails: the model of iterating `children.iter().map(|e|
query.get(*e).unwrap())` (a `none` models the `unwrap` panic). -/
def resolveAll {α β : Type} (q : α → Option β) : List α → Option (List β)
  | [] => some []
  | a :: t =>
    match q a, resolveAll q t with
    | some b, some bs => some (b :: bs)
    | _, _ => none

/-- The record `prepare_buffer` pushes for one resolved child: position from the
child transform translation, scale and color from the child component. -/
def childRecord (ct : InstancedMaterialChild × Transform) : InstanceData :=
  { position := ct.2.translation, scale := ct.1.scale, color := ct.1.color }

/-- Model of the body of `prepare_buffer` for one host (v0.12.1 variant, lines
124-137): resolve every child with `childQueryGet ... .unwrap()` (a failed
lookup panics, modelled by `none`), clear the host buffer, then push one
`InstanceData` per child in child order. -/
def prepareBufferHost (w : ChildWorld) (host : InstancedMaterialHost)
    (children : List Entity) : Option InstancedMaterialHost :=
  match resolveAll (childQueryGet w) children with
  | none => none
  | some resolved =>
    let _ := host.buffer.length
    some { buffer := resolved.map childRecord }

/-- Model of the `prepare_buffer` system of the parent/child variant: iterate
over the query of hosts (each host with its `Children` entity list) and rewrite
each host buffer; any failed child lookup panics (`none`). -/
def prepare_buffer (w : ChildWorld)
    (hosts : List (InstancedMaterialHost × List Entity)) :
    Option (List InstancedMaterialHost) :=
  resolveAll (fun hc => prepareBufferHost w hc.1 hc.2) hosts

/-- A default instance record, used only as the out-of-range value of `List.getD`
in statements about record positions. -/
def dummyRecord : InstanceData :=
  { position := ⟨0, 0, 0⟩, scale := 0, color := ⟨0, 0, 0, 0⟩ }

theorem resolveAll_eq_map_of_forall {α β : Type} (q : α → Option β) (f : α → β)
    (l : List α) (h : ∀ e ∈ l, q e = some (f e)) :
    resolveAll q l = some (l.map f) := by
  induction l with
  | nil => rfl
  | cons a t ih =>
    have ha : q a = some (f a) := h a (List.mem_cons_self a t)
    have ht : resolveAll q t = some (t.map f) :=
      ih fun e he => h e (List.mem_cons_of_mem a he)
    simp [resolveAll, ha, ht]

theorem resolveAll_isSome_iff {α β : Type} (q : α → Option β) (l : List α) :
    (resolveAll q l).isSome ↔ ∀ e ∈ l, (q e).isSome := by
  induction l with
  | nil => simp [resolveAll]
  | cons a t ih =>
    cases hqa : q a with
    | none => simp [resolveAll, hqa]
    | some b =>
      cases hqt : resolveAll q t with
      | none =>
        rw [hqt] at ih
        simp only [resolveAll, hqa, hqt]
        simp only [Option.isSome_none, Bool.false_eq_true, false_iff] at ih ⊢
        intro hall
        exact ih fun e he => hall e (List.mem_cons_of_mem a he)
      | some bs =>
        rw [hqt] at ih
        simp only [resolveAll, hqa, hqt]
        simp only [Option.isSome_some, true_iff] at ih ⊢
        intro e he
        rcases List.mem_cons.mp he with rfl | het
        · simp [hqa]
        · exact ih e het

theorem getD_map_of_lt {α β : Type} (f : α → β) (l : List α) (d : β) (d0 : α) :
    ∀ i, i < l.length → (l.map f).getD i d = f (l.getD i d0) := by
  induction l with
  | nil => intro i hi; simp at hi
  | cons a t ih =>
    intro i hi
    cases i with
    | zero => simp
    | succ j =>
      simp only [List.map_cons, List.getD_cons_succ]
      exact ih j (by simpa using hi)

/-- C1: for every host whose `n` children all resolve in the child query
(resolution function `res`), one run of the aggregator leaves the host's
instance buffer with exactly `n` records, in child traversal order, the `i`-th
record taking its position from the `i`-th child's transform translation, its
scale from that child's scale attribute and its color from that child's color
attribute. -/
theorem prepare_buffer_faithful_projection (w : ChildWorld)
    (host : InstancedMaterialHost) (children : List Entity)
    (res : Entity → InstancedMaterialChild × Transform)
    (hres : ∀ e ∈ children, childQueryGet w e = some (res e)) :
    prepareBufferHost w host children =
      some { buffer := children.map fun e => childRecord (res e) } ∧
    (children.map fun e => childRecord (res e)).length = children.length ∧
    ∀ i, i < children.length →
      (children.map fun e => childRecord (res e)).getD i dummyRecord =
        { position := (res (children.getD i 0)).2.translation,
          scale := (res (children.getD i 0)).1.scale,
          color := (res (children.getD i 0)).1.color } := by
  have hmap := resolveAll_eq_map_of_forall (childQueryGet w) res children hres
  refine ⟨?_, by simp, ?_⟩
  · simp [prepareBufferHost, hmap, List.map_map]
  · intro i hi
    rw [getD_map_of_lt (fun e => childRecord (res e)) children dummyRecord 0 i hi]
    rfl

/-- Closed instance of `prepare_buffer_faithful_projection` at a concrete
two-child world. -/
theorem prepare_buffer_faithful_projection_witness :
    prepareBufferHost
        { childComp := fun e =>
            if e = 1 then some { color := ⟨1, 0, 0, 1⟩, scale := 2 }
            else if e = 2 then some { color := ⟨0, 1, 0, 1⟩, scale := 3 } else none,
          transformComp := fun e =>
            if e ≤ 2 then some { translation := ⟨e, 0, 5⟩,
                                 rotation := ⟨0, 0, 0, 1⟩, scale := ⟨1, 1, 1⟩ }
            else none }
        { buffer := [dummyRecord] } [1, 2] =
      some { buffer := [1, 2].map (fun e => childRecord
        (if e = 1 then ({ color := ⟨1, 0, 0, 1⟩, scale := 2 },
            { translation := ⟨1, 0, 5⟩, rotation := ⟨0, 0, 0, 1⟩, scale := ⟨1, 1, 1⟩ })
          else ({ color := ⟨0, 1, 0, 1⟩, scale := 3 },
            { translation := ⟨2, 0, 5⟩, rotation := ⟨0, 0, 0, 1⟩, scale := ⟨1, 1, 1⟩ }))) } :=
  (prepare_buffer_faithful_projection
      { childComp := fun e =>
          if e = 1 then some { color := ⟨1, 0, 0, 1⟩, scale := 2 }
          else if e = 2 then some { color := ⟨0, 1, 0, 1⟩, scale := 3 } else none,
        transformComp := fun e =>
          if e ≤ 2 then some { translation := ⟨e, 0, 5⟩,
                               rotation := ⟨0, 0, 0, 1⟩, scale := ⟨1, 1, 1⟩ }
          else none }
      { buffer := [dummyRecord] } [1, 2]
      (fun e =>
        if e = 1 then ({ color := ⟨1, 0, 0, 1⟩, scale := 2 },
          { translation := ⟨1, 0, 5⟩, rotation := ⟨0, 0, 0, 1⟩, scale := ⟨1, 1, 1⟩ })
        else ({ color := ⟨0, 1, 0, 1⟩, scale := 3 },
          { translation := ⟨2, 0, 5⟩, rotation := ⟨0, 0, 0, 1⟩, scale := ⟨1, 1, 1⟩ }))
      (by decide)).1

/-- C10: the parent/child `prepare_buffer` completes without panicking exactly
when every entity listed as a child of some host carries both the
`InstancedMaterialChild` component and the `Transform` component (a missing
child entity is the case where both lookups fail); any host child lacking
either component makes the unwrapped query lookup panic. -/
theorem prepare_buffer_panics_iff (w : ChildWorld)
    (hosts : List (InstancedMaterialHost × List Entity)) :
    (prepare_buffer w hosts).isSome ↔
      ∀ hc ∈ hosts, ∀ e ∈ hc.2,
        (w.childComp e).isSome ∧ (w.transformComp e).isSome := by
  unfold prepare_buffer
  rw [resolveAll_isSome_iff]
  have hhost : ∀ hc : InstancedMaterialHost × List Entity,
      (prepareBufferHost w hc.1 hc.2).isSome ↔
        ∀ e ∈ hc.2, (w.childComp e).isSome ∧ (w.transformComp e).isSome := by
    intro hc
    unfold prepareBufferHost
    cases hm : resolveAll (childQueryGet w) hc.2 with
    | none =>
      simp only [Option.isSome_none, Bool.false_eq_true, false_iff]
      intro hall
      have : (resolveAll (childQueryGet w) hc.2).isSome := by
        rw [resolveAll_isSome_iff]
        intro e he
        rcases hall e he with ⟨h1, h2⟩
        rcases Option.isSome_iff_exists.mp h1 with ⟨c, hce⟩
        rcases Option.isSome_iff_exists.mp h2 with ⟨t, hte⟩
        simp [childQueryGet, hce, hte]
      rw [hm] at this
      simp at this
    | some resolved =>
      simp only [Option.isSome_some, true_iff]
      intro e he
      have hall := (resolveAll_isSome_iff (childQueryGet w) hc.2).mp (by rw [hm]; rfl)
      have := hall e he
      unfold childQueryGet at this
      cases h1 : w.childComp e with
      | none => rw [h1] at this; simp at this
      | some c =>
        cases h2 : w.transformComp e with
        | none => rw [h1, h2] at this; simp at this
        | some t => exact ⟨by simp [h1], by simp [h2]⟩
  constructor
  · intro h hc hmem e he
    exact (hhost hc).mp (h hc hmem) e he
  · intro h hc hmem
    exact (hhost hc).mpr (h hc hmem)

/-- Closed instance of `prepare_buffer_panics_iff`: a world whose entity `7`
lacks the `Transform` component makes `prepare_buffer` panic on a host listing
`7` as a child. -/
theorem prepare_buffer_panics_iff_witness :
    (prepare_buffer
        { childComp := fun e => if e = 7 then some { color := ⟨0, 0, 0, 1⟩, scale := 1 } else none,
          transformComp := fun _ => none }
        [({ buffer := [] }, [7])]).isSome ↔
      ∀ hc ∈ [(({ buffer := [] } : InstancedMaterialHost), [(7 : Entity)])], ∀ e ∈ hc.2,
        ((fun e => if e = 7 then some ({ color := ⟨0, 0, 0, 1⟩, scale := 1 } : InstancedMaterialChild) else none) e).isSome ∧
        ((fun (_ : Entity) => (none : Option Transform)) e).isSome :=
  prepare_buffer_panics_iff
    { childComp := fun e => if e = 7 then some { color := ⟨0, 0, 0, 1⟩, scale := 1 } else none,
      transformComp := fun _ => none }
    [({ buffer := [] }, [7])]

/-! ## Queueing, pipeline key and the specialization cache -/

/-- Model of `PrimitiveTopology`. -/
inductive PrimitiveTopology
  | pointList
  | lineList
  | lineStrip
  | triangleList
  | triangleStrip
deriving DecidableEq, Repr

/-- Model of `MeshVertexBufferLayout` as an opaque layout fingerprint: the code
only hands it to the base specialization and the cache key. -/
abbrev MeshVertexBufferLayout := Nat

/-- Model of `Mesh2dPipelineKey`, a bitflag set.  Its three disjoint bit groups
used by `queue_custom` (msaa sample count, hdr flag, primitive topology) are
modelled as fields; the bit-or of `msaa_key | from_hdr | from_primitive_topology`
becomes field-wise combination since the groups are disjoint. -/
structure Mesh2dPipelineKey where
  msaaSamples : Nat
  hdr : Bool
  topology : PrimitiveTopology
deriving DecidableEq, Repr

/-- Model of a specialization error (`SpecializedMeshPipelineError`), carried as
its display message. -/
abbrev SpecErr := String

/-- Model of `GpuBufferInfo`: an indexed mesh carries an index buffer handle, an
index format and an index count; a non-indexed mesh carries nothing. -/
inductive GpuBufferInfo
  | indexed (buffer : Nat) (indexFormat : Nat) (count : Nat)
  | nonIndexed
deriving DecidableEq, Repr

/-- Model of the render-world mesh (`RenderAssets<Mesh>` entry): `queue_custom`
reads its primitive topology and vertex layout, `DrawMeshInstanced::render`
reads its vertex buffer, vertex count and buffer info. -/
structure GpuMesh where
  primitiveTopology : PrimitiveTopology
  layout : MeshVertexBufferLayout
  vertexBuffer : Nat
  vertexCount : Nat
  bufferInfo : GpuBufferInfo
deriving DecidableEq, Repr

/-- Model of a `RenderMesh2dInstances` entry: the mesh asset id and the
extracted transform (of which `queue_custom` reads the translation). -/
structure RenderMesh2dInstance where
  meshAssetId : Nat
  translation : Vec3
deriving DecidableEq, Repr

/-- Model of `ExtractedView`: `queue_custom` reads only `hdr`; the view's world
translation (part of `ExtractedView`'s transform in the source) is carried so
that view-space quantities are expressible. -/
structure ExtractedView where
  hdr : Bool
  viewTranslation : Vec3
deriving DecidableEq, Repr

/-- Model of a `Transparent2d` phase item as `queue_custom` constructs it. -/
structure Transparent2dItem where
  sortKey : F32
  entity : Entity
  pipeline : Nat
  drawFunction : Nat
  batchRangeStart : Nat
  batchRangeEnd : Nat
  dynamicOffset : Option Nat
deriving DecidableEq, Repr

/-- Association-list lookup used by the specialization cache model. -/
def findEntry {κ : Type} [DecidableEq κ] (entries : List (κ × Nat)) (k : κ) :
    Option Nat :=
  match entries with
  | [] => none
  | (k', v) :: t => if k' = k then some v else findEntry t k

/-- Modelled from the spec: the Pipeline Specialization Cache (bevy's
`SpecializedMeshPipelines` resource together with the `PipelineCache`, whose
code is outside this repository): `entries` maps each (key, layout) pair to the
compiled pipeline id, `nextId` is the next fresh id, and `compiles` logs every
compile event (cache miss with successful specialization). -/
structure PipelineCacheState where
  entries : List ((Mesh2dPipelineKey × MeshVertexBufferLayout) × Nat)
  nextId : Nat
  compiles : List (Mesh2dPipelineKey × MeshVertexBufferLayout)
deriving DecidableEq, Repr

/-- Modelled from the spec: one cache request, "compiles on miss, reuses on
hit".  `compile` is the specialization step for this key and layout; on a miss
it runs once and, when it succeeds, the fresh pipeline id is cached; a failed
specialization caches nothing and reports the error. -/
def cacheSpecialize
    (compile : Mesh2dPipelineKey → MeshVertexBufferLayout → Except SpecErr Unit)
    (st : PipelineCacheState) (key : Mesh2dPipelineKey)
    (layout : MeshVertexBufferLayout) : Except SpecErr Nat × PipelineCacheState :=
  match findEntry st.entries (key, layout) with
  | some pid => (.ok pid, st)
  | none =>
    match compile key layout with
    | .error e => (.error e, st)
    | .ok _ =>
      (.ok st.nextId,
       { entries := ((key, layout), st.nextId) :: st.entries,
         nextId := st.nextId + 1,
         compiles := (key, layout) :: st.compiles })

/-- Run a list of cache requests in order, returning the final cache state. -/
def runRequests
    (compile : Mesh2dPipelineKey → MeshVertexBufferLayout → Except SpecErr Unit)
    (st : PipelineCacheState) :
    List (Mesh2dPipelineKey × MeshVertexBufferLayout) → PipelineCacheState
  | [] => st
  | (k, l) :: t => runRequests compile (cacheSpecialize compile st k l).2 t

/-- The inputs `queue_custom` reads besides the cache: the draw function id, the
msaa sample count, the host entity query, the two render-world resources and
the extracted views. -/
structure QueueInput where
  drawCustomId : Nat
  msaaSamples : Nat
  entities : List Entity
  renderMeshInstances : Entity → Option RenderMesh2dInstance
  meshes : Nat → Option GpuMesh
  views : List ExtractedView

/-- The full pipeline key `queue_custom` builds for a host:
`view_key | Mesh2dPipelineKey::from_primitive_topology(mesh.primitive_topology)`
where `view_key = msaa_key | from_hdr(view.hdr)`. -/
def hostKey (inp : QueueInput) (view : ExtractedView) (mesh : GpuMesh) :
    Mesh2dPipelineKey :=
  { msaaSamples := inp.msaaSamples, hdr := view.hdr,
    topology := mesh.primitiveTopology }

/-- The render-side state `queue_custom` threads across views and entities: the
specialization cache and the log of specialization errors reported so far. -/
structure QueueAcc where
  cache : PipelineCacheState
  errors : List SpecErr

/-- Model of the per-entity loop body of `queue_custom` in the parent/child
variant (v0.12.1, lines 167-198): skip the entity when either render resource
is missing, build the key, specialize through the cache, log the error and skip
on failure, and otherwise push one `Transparent2d` item. -/
def queueEntity
    (inp : QueueInput)
    (compile : Mesh2dPipelineKey → MeshVertexBufferLayout → Except SpecErr Unit)
    (view : ExtractedView) (s : QueueAcc × List Transparent2dItem) (e : Entity) :
    QueueAcc × List Transparent2dItem :=
  match inp.renderMeshInstances e with
  | none => s
  | some meshInstance =>
    match inp.meshes meshInstance.meshAssetId with
    | none => s
    | some mesh =>
      match cacheSpecialize compile s.1.cache (hostKey inp view mesh) mesh.layout with
      | (.error err, cache') =>
        ({ cache := cache', errors := s.1.errors ++ [err] }, s.2)
      | (.ok pid, cache') =>
        ({ cache := cache', errors := s.1.errors },
         s.2 ++ [{ sortKey := meshInstance.translation.z, entity := e,
                   pipeline := pid, drawFunction := inp.drawCustomId,
                   batchRangeStart := 0, batchRangeEnd := 1,
                   dynamicOffset := none }])

/-- Model of the per-view loop of the parent/child `queue_custom`: fold the
entity loop over the hosts, collecting this view's added phase items. -/
def queueView
    (inp : QueueInput)
    (compile : Mesh2dPipelineKey → MeshVertexBufferLayout → Except SpecErr Unit)
    (acc : QueueAcc) (view : ExtractedView) : QueueAcc × List Transparent2dItem :=
  inp.entities.foldl (queueEntity inp compile view) (acc, [])

/-- One iteration of the outer (per-view) loop of `queue_custom`: run the view's
entity loop and record the view's added phase items. -/
def queueStep
    (inp : QueueInput)
    (compile : Mesh2dPipelineKey → MeshVertexBufferLayout → Except SpecErr Unit)
    (s : List (List Transparent2dItem) × QueueAcc) (view : ExtractedView) :
    List (List Transparent2dItem) × QueueAcc :=
  let r := queueView inp compile s.2 view
  (s.1 ++ [r.2], r.1)

/-- Model of `queue_custom` of the parent/child variant (v0.12.1): for every
view, queue every resolvable host, logging and skipping hosts whose
specialization fails.  Returns the phase items added per view (aligned with
`inp.views`) and the final cache/error state. -/
def queue_custom
    (inp : QueueInput)
    (compile : Mesh2dPipelineKey → MeshVertexBufferLayout → Except SpecErr Unit)
    (cache0 : PipelineCacheState) :
    List (List Transparent2dItem) × QueueAcc :=
  inp.views.foldl (queueStep inp compile) ([], { cache := cache0, errors := [] })

/-- Model of the per-entity loop body of `queue_custom` in the direct-buffer
variant (`src/src/main.rs`, lines 150-173): identical except that the result of
the cache specialization is `.unwrap()`-ed, so a specialization failure panics
(modelled by `none`) instead of being logged and skipped. -/
def queueEntityV1
    (inp : QueueInput)
    (compile : Mesh2dPipelineKey → MeshVertexBufferLayout → Except SpecErr Unit)
    (view : ExtractedView) (s : PipelineCacheState × List Transparent2dItem)
    (e : Entity) : Option (PipelineCacheState × List Transparent2dItem) :=
  match inp.renderMeshInstances e with
  | none => some s
  | some meshInstance =>
    match inp.meshes meshInstance.meshAssetId with
    | none => some s
    | some mesh =>
      match cacheSpecialize compile s.1 (hostKey inp view mesh) mesh.layout with
      | (.error _, _) => none
      | (.ok pid, cache') =>
        some (cache',
          s.2 ++ [{ sortKey := meshInstance.translation.z, entity := e,
                    pipeline := pid, drawFunction := inp.drawCustomId,
                    batchRangeStart := 0, batchRangeEnd := 1,
                    dynamicOffset := none }])

/-- Model of `queue_custom` of the direct-buffer variant: as `queue_custom` but
any specialization failure panics the whole system (`none`). -/
def queue_custom_v1
    (inp : QueueInput)
    (compile : Mesh2dPipelineKey → MeshVertexBufferLayout → Except SpecErr Unit)
    (cache0 : PipelineCacheState) :
    Option (List (List Transparent2dItem) × PipelineCacheState) :=
  inp.views.foldlM
    (fun s view =>
      (inp.entities.foldlM (queueEntityV1 inp compile view) (s.2, [])).map
        fun r => (s.1 ++ [r.2], r.1))
    ([], cache0)

/-- Modelled from the spec: the view-space depth coordinate of a world position
as seen from a view, "depth of the host as seen from that view" — the z
component of the position expressed in the view's coordinate frame, i.e. the
world z translated by the camera's world z (the 2d cameras of this program are
unrotated). -/
def viewSpaceDepth (view : ExtractedView) (p : Vec3) : F32 :=
  p.z - view.viewTranslation.z

/-- Every cached entry was successfully compiled: the invariant of the
specialization cache (failed specializations are never cached). -/
def CacheGood
    (compile : Mesh2dPipelineKey → MeshVertexBufferLayout → Except SpecErr Unit)
    (st : PipelineCacheState) : Prop :=
  ∀ p ∈ st.entries, compile p.1.1 p.1.2 = .ok ()

theorem findEntry_mem {κ : Type} [DecidableEq κ] (es : List (κ × Nat)) (k : κ)
    (v : Nat) (h : findEntry es k = some v) : (k, v) ∈ es := by
  induction es with
  | nil => cases h
  | cons p t ih =>
    rcases p with ⟨k', v'⟩
    simp only [findEntry] at h
    split at h
    next hk =>
      injection h with hv
      subst hv
      subst hk
      exact List.mem_cons_self _ _
    next hk => exact List.mem_cons_of_mem _ (ih h)

theorem cacheSpecialize_good
    (compile : Mesh2dPipelineKey → MeshVertexBufferLayout → Except SpecErr Unit)
    (st : PipelineCacheState) (k : Mesh2dPipelineKey)
    (l : MeshVertexBufferLayout) (hg : CacheGood compile st) :
    CacheGood compile (cacheSpecialize compile st k l).2 := by
  unfold cacheSpecialize
  cases hf : findEntry st.entries (k, l) with
  | some pid => simpa using hg
  | none =>
    cases hc : compile k l with
    | error e => simpa using hg
    | ok u =>
      intro p hp
      simp only at hp
      rcases List.mem_cons.mp hp with rfl | hp
      · cases u; exact hc
      · exact hg p hp

theorem cacheSpecialize_compile_error
    (compile : Mesh2dPipelineKey → MeshVertexBufferLayout → Except SpecErr Unit)
    (st : PipelineCacheState) (k : Mesh2dPipelineKey)
    (l : MeshVertexBufferLayout) (err : SpecErr) (hg : CacheGood compile st)
    (hc : compile k l = .error err) :
    cacheSpecialize compile st k l = (.error err, st) := by
  have hf : findEntry st.entries (k, l) = none := by
    cases hf : findEntry st.entries (k, l) with
    | none => rfl
    | some pid =>
      have := hg _ (findEntry_mem st.entries (k, l) pid hf)
      rw [hc] at this
      cases this
  unfold cacheSpecialize
  rw [hf, hc]

theorem cacheSpecialize_ok_of_compile_ok
    (compile : Mesh2dPipelineKey → MeshVertexBufferLayout → Except SpecErr Unit)
    (st : PipelineCacheState) (k : Mesh2dPipelineKey)
    (l : MeshVertexBufferLayout) (hc : compile k l = .ok ()) :
    ∃ pid, (cacheSpecialize compile st k l).1 = .ok pid := by
  cases hf : findEntry st.entries (k, l) with
  | some pid => exact ⟨pid, by simp [cacheSpecialize, hf]⟩
  | none => exact ⟨st.nextId, by simp [cacheSpecialize, hf, hc]⟩

theorem cacheSpecialize_ok_implies_compile_ok
    (compile : Mesh2dPipelineKey → MeshVertexBufferLayout → Except SpecErr Unit)
    (st : PipelineCacheState) (k : Mesh2dPipelineKey)
    (l : MeshVertexBufferLayout) (pid : Nat) (hg : CacheGood compile st)
    (h : (cacheSpecialize compile st k l).1 = .ok pid) :
    compile k l = .ok () := by
  unfold cacheSpecialize at h
  cases hf : findEntry st.entries (k, l) with
  | some pid' => exact hg _ (findEntry_mem st.entries (k, l) pid' hf)
  | none =>
    rw [hf] at h
    cases hc : compile k l with
    | error e => rw [hc] at h; cases h
    | ok u => cases u; rfl

/-- What holds of every phase item `queue_custom` adds for a view: the item's
entity resolves in both render resources, its key's specialization compiles,
its sort key is the resolved transform's translation z, and the fixed fields
are as the source writes them. -/
def QueuedEntryOk
    (inp : QueueInput)
    (compile : Mesh2dPipelineKey → MeshVertexBufferLayout → Except SpecErr Unit)
    (view : ExtractedView) (t : Transparent2dItem) : Prop :=
  ∃ mi mesh,
    inp.renderMeshInstances t.entity = some mi ∧
    inp.meshes mi.meshAssetId = some mesh ∧
    compile (hostKey inp view mesh) mesh.layout = .ok () ∧
    t.sortKey = mi.translation.z ∧
    t.drawFunction = inp.drawCustomId ∧
    t.batchRangeStart = 0 ∧ t.batchRangeEnd = 1 ∧ t.dynamicOffset = none

theorem queueView_fold_spec
    (inp : QueueInput)
    (compile : Mesh2dPipelineKey → MeshVertexBufferLayout → Except SpecErr Unit)
    (view : ExtractedView) :
    ∀ (es : List Entity) (acc : QueueAcc) (phase : List Transparent2dItem),
      CacheGood compile acc.cache →
      CacheGood compile
        ((es.foldl (queueEntity inp compile view) (acc, phase)).1.cache) ∧
      (∃ derr, (es.foldl (queueEntity inp compile view) (acc, phase)).1.errors =
        acc.errors ++ derr) ∧
      (∃ d, (es.foldl (queueEntity inp compile view) (acc, phase)).2 =
          phase ++ d ∧ ∀ t ∈ d, QueuedEntryOk inp compile view t) ∧
      (∀ e ∈ es, ∀ mi mesh err,
        inp.renderMeshInstances e = some mi →
        inp.meshes mi.meshAssetId = some mesh →
        compile (hostKey inp view mesh) mesh.layout = .error err →
        err ∈ (es.foldl (queueEntity inp compile view) (acc, phase)).1.errors) ∧
      (∀ e ∈ es, ∀ mi mesh,
        inp.renderMeshInstances e = some mi →
        inp.meshes mi.meshAssetId = some mesh →
        compile (hostKey inp view mesh) mesh.layout = .ok () →
        ∃ t ∈ (es.foldl (queueEntity inp compile view) (acc, phase)).2,
          t.entity = e) := by
  intro es
  induction es with
  | nil =>
    intro acc phase hg
    exact ⟨hg, ⟨[], by simp⟩, ⟨[], by simp, by simp⟩, by simp, by simp⟩
  | cons e es ih =>
    intro acc phase hg
    rw [List.foldl_cons]
    cases hrmi : inp.renderMeshInstances e with
    | none =>
      have hstep : queueEntity inp compile view (acc, phase) e = (acc, phase) := by
        simp [queueEntity, hrmi]
      rw [hstep]
      obtain ⟨hg', herr, hd, hfail, hok⟩ := ih acc phase hg
      refine ⟨hg', herr, hd, ?_, ?_⟩
      · intro e' he' mi mesh err h1 h2 h3
        rcases List.mem_cons.mp he' with rfl | he'
        · rw [hrmi] at h1; cases h1
        · exact hfail e' he' mi mesh err h1 h2 h3
      · intro e' he' mi mesh h1 h2 h3
        rcases List.mem_cons.mp he' with rfl | he'
        · rw [hrmi] at h1; cases h1
        · exact hok e' he' mi mesh h1 h2 h3
    | some mi =>
      cases hmesh : inp.meshes mi.meshAssetId with
      | none =>
        have hstep : queueEntity inp compile view (acc, phase) e = (acc, phase) := by
          simp [queueEntity, hrmi, hmesh]
        rw [hstep]
        obtain ⟨hg', herr, hd, hfail, hok⟩ := ih acc phase hg
        refine ⟨hg', herr, hd, ?_, ?_⟩
        · intro e' he' mi' mesh err h1 h2 h3
          rcases List.mem_cons.mp he' with rfl | he'
          · rw [hrmi] at h1
            cases h1
            rw [hmesh] at h2; cases h2
          · exact hfail e' he' mi' mesh err h1 h2 h3
        · intro e' he' mi' mesh h1 h2 h3
          rcases List.mem_cons.mp he' with rfl | he'
          · rw [hrmi] at h1
            cases h1
            rw [hmesh] at h2; cases h2
          · exact hok e' he' mi' mesh h1 h2 h3
      | some mesh =>
        cases hspec : cacheSpecialize compile acc.cache (hostKey inp view mesh)
            mesh.layout with
        | mk res cache' =>
          have hgood' : CacheGood compile cache' := by
            have := cacheSpecialize_good compile acc.cache (hostKey inp view mesh)
              mesh.layout hg
            rw [hspec] at this
            exact this
          cases res with
          | error err =>
            have hstep : queueEntity inp compile view (acc, phase) e =
                ({ cache := cache', errors := acc.errors ++ [err] }, phase) := by
              simp [queueEntity, hrmi, hmesh, hspec]
            rw [hstep]
            obtain ⟨hg', ⟨derr, herr⟩, hd, hfail, hok⟩ :=
              ih ⟨cache', acc.errors ++ [err]⟩ phase hgood'
            refine ⟨hg', ⟨[err] ++ derr, by rw [herr]; simp⟩, hd, ?_, ?_⟩
            · intro e' he' mi' mesh' err' h1 h2 h3
              rcases List.mem_cons.mp he' with rfl | he'
              · rw [hrmi] at h1
                cases h1
                rw [hmesh] at h2
                cases h2
                have := cacheSpecialize_compile_error compile acc.cache
                  (hostKey inp view mesh) mesh.layout err' hg h3
                rw [hspec] at this
                have herr' : err = err' := by
                  have h4 := congrArg Prod.fst this
                  simp only at h4
                  cases h4
                  rfl
                subst herr'
                rw [herr]
                simp
              · exact hfail e' he' mi' mesh' err' h1 h2 h3
            · intro e' he' mi' mesh' h1 h2 h3
              rcases List.mem_cons.mp he' with rfl | he'
              · rw [hrmi] at h1
                cases h1
                rw [hmesh] at h2
                cases h2
                obtain ⟨pid, hpid⟩ := cacheSpecialize_ok_of_compile_ok compile
                  acc.cache (hostKey inp view mesh) mesh.layout h3
                rw [hspec] at hpid
                cases hpid
              · exact hok e' he' mi' mesh' h1 h2 h3
          | ok pid =>
            have hstep : queueEntity inp compile view (acc, phase) e =
                ({ cache := cache', errors := acc.errors },
                 phase ++ [{ sortKey := mi.translation.z, entity := e,
                             pipeline := pid, drawFunction := inp.drawCustomId,
                             batchRangeStart := 0, batchRangeEnd := 1,
                             dynamicOffset := none }]) := by
              simp [queueEntity, hrmi, hmesh, hspec]
            have hcok : compile (hostKey inp view mesh) mesh.layout = .ok () :=
              cacheSpecialize_ok_implies_compile_ok compile acc.cache
                (hostKey inp view mesh) mesh.layout pid hg (by rw [hspec])
            rw [hstep]
            obtain ⟨hg', herr, ⟨d, hdphase, hdok⟩, hfail, hok⟩ :=
              ih ⟨cache', acc.errors⟩
                (phase ++ [{ sortKey := mi.translation.z, entity := e,
                             pipeline := pid, drawFunction := inp.drawCustomId,
                             batchRangeStart := 0, batchRangeEnd := 1,
                             dynamicOffset := none }]) hgood'
            refine ⟨hg', herr, ?_, ?_, ?_⟩
            · refine ⟨{ sortKey := mi.translation.z, entity := e, pipeline := pid,
                        drawFunction := inp.drawCustomId, batchRangeStart := 0,
                        batchRangeEnd := 1, dynamicOffset := none } :: d,
                by rw [hdphase]; simp, ?_⟩
              intro t ht
              rcases List.mem_cons.mp ht with rfl | ht
              · exact ⟨mi, mesh, hrmi, hmesh, hcok, rfl, rfl, rfl, rfl, rfl⟩
              · exact hdok t ht
            · intro e' he' mi' mesh' err' h1 h2 h3
              rcases List.mem_cons.mp he' with rfl | he'
              · rw [hrmi] at h1
                cases h1
                rw [hmesh] at h2
                cases h2
                rw [hcok] at h3
                cases h3
              · exact hfail e' he' mi' mesh' err' h1 h2 h3
            · intro e' he' mi' mesh' h1 h2 h3
              rcases List.mem_cons.mp he' with rfl | he'
              · refine ⟨{ sortKey := mi.translation.z, entity := e', pipeline := pid,
                          drawFunction := inp.drawCustomId, batchRangeStart := 0,
                          batchRangeEnd := 1, dynamicOffset := none }, ?_, rfl⟩
                rw [hdphase]
                simp
              · exact hok e' he' mi' mesh' h1 h2 h3

/-- The per-view property established by the outer loop of `queue_custom`: every
item this view's phase received is well-formed (`QueuedEntryOk`) and every host
that resolves and whose key specializes successfully is queued for this view. -/
def ViewPhaseCore
    (inp : QueueInput)
    (compile : Mesh2dPipelineKey → MeshVertexBufferLayout → Except SpecErr Unit)
    (view : ExtractedView) (phase : List Transparent2dItem) : Prop :=
  (∀ t ∈ phase, QueuedEntryOk inp compile view t) ∧
  (∀ e ∈ inp.entities, ∀ mi mesh,
    inp.renderMeshInstances e = some mi →
    inp.meshes mi.meshAssetId = some mesh →
    compile (hostKey inp view mesh) mesh.layout = .ok () →
    ∃ t ∈ phase, t.entity = e)

theorem queue_custom_fold_spec
    (inp : QueueInput)
    (compile : Mesh2dPipelineKey → MeshVertexBufferLayout → Except SpecErr Unit) :
    ∀ (vs : List ExtractedView) (phases0 : List (List Transparent2dItem))
      (acc : QueueAcc),
      CacheGood compile acc.cache →
      CacheGood compile
        ((vs.foldl (queueStep inp compile) (phases0, acc)).2.cache) ∧
      (∃ derr, (vs.foldl (queueStep inp compile) (phases0, acc)).2.errors =
        acc.errors ++ derr) ∧
      (∃ ph, (vs.foldl (queueStep inp compile) (phases0, acc)).1 =
          phases0 ++ ph ∧
        List.Forall₂ (ViewPhaseCore inp compile) vs ph) ∧
      (∀ view ∈ vs, ∀ e ∈ inp.entities, ∀ mi mesh err,
        inp.renderMeshInstances e = some mi →
        inp.meshes mi.meshAssetId = some mesh →
        compile (hostKey inp view mesh) mesh.layout = .error err →
        err ∈ (vs.foldl (queueStep inp compile) (phases0, acc)).2.errors) := by
  intro vs
  induction vs with
  | nil =>
    intro phases0 acc hg
    exact ⟨hg, ⟨[], by simp⟩, ⟨[], by simp, List.Forall₂.nil⟩, by simp⟩
  | cons view vs ih =>
    intro phases0 acc hg
    rw [List.foldl_cons]
    obtain ⟨hg1, ⟨derr1, herr1⟩, ⟨d, hd, hdok⟩, hfail1, hok1⟩ :=
      queueView_fold_spec inp compile view inp.entities acc [] hg
    have hstep : queueStep inp compile (phases0, acc) view =
        (phases0 ++ [(inp.entities.foldl (queueEntity inp compile view) (acc, [])).2],
         (inp.entities.foldl (queueEntity inp compile view) (acc, [])).1) := rfl
    rw [hstep]
    obtain ⟨hg2, ⟨derr2, herr2⟩, ⟨ph, hph, hphok⟩, hfail2⟩ :=
      ih (phases0 ++ [(inp.entities.foldl (queueEntity inp compile view) (acc, [])).2])
        (inp.entities.foldl (queueEntity inp compile view) (acc, [])).1 hg1
    refine ⟨hg2, ⟨derr1 ++ derr2, by rw [herr2, herr1]; simp⟩, ?_, ?_⟩
    · refine ⟨(inp.entities.foldl (queueEntity inp compile view) (acc, [])).2 :: ph,
        by rw [hph]; simp, ?_⟩
      refine List.Forall₂.cons ⟨?_, ?_⟩ hphok
      · intro t ht
        rw [hd] at ht
        simp only [List.nil_append] at ht
        exact hdok t ht
      · intro e he mi mesh h1 h2 h3
        exact hok1 e he mi mesh h1 h2 h3
    · intro view' hview' e he mi mesh err h1 h2 h3
      rcases List.mem_cons.mp hview' with rfl | hview'
      · have hmem : err ∈
            (inp.entities.foldl (queueEntity inp compile view') (acc, [])).1.errors :=
          hfail1 e he mi mesh err h1 h2 h3
        rw [herr2]
        exact List.mem_append_left _ hmem
      · exact hfail2 view' hview' e he mi mesh err h1 h2 h3

/-- Failure handling of the parent/child `queue_custom`: per view (aligned with
`inp.views`), every queued item is well-formed, a resolvable host whose key
fails specialization is not queued for that view, and a resolvable host whose
key specializes is queued; moreover every specialization failure's error is in
the error log. -/
def QueueFailureHandling
    (inp : QueueInput)
    (compile : Mesh2dPipelineKey → MeshVertexBufferLayout → Except SpecErr Unit)
    (cache0 : PipelineCacheState) : Prop :=
  List.Forall₂
    (fun view phase =>
      (∀ t ∈ phase, QueuedEntryOk inp compile view t) ∧
      (∀ e mi mesh err,
        inp.renderMeshInstances e = some mi →
        inp.meshes mi.meshAssetId = some mesh →
        compile (hostKey inp view mesh) mesh.layout = .error err →
        ∀ t ∈ phase, t.entity ≠ e) ∧
      (∀ e ∈ inp.entities, ∀ mi mesh,
        inp.renderMeshInstances e = some mi →
        inp.meshes mi.meshAssetId = some mesh →
        compile (hostKey inp view mesh) mesh.layout = .ok () →
        ∃ t ∈ phase, t.entity = e))
    inp.views (queue_custom inp compile cache0).1 ∧
  (∀ view ∈ inp.views, ∀ e ∈ inp.entities, ∀ mi mesh err,
    inp.renderMeshInstances e = some mi →
    inp.meshes mi.meshAssetId = some mesh →
    compile (hostKey inp view mesh) mesh.layout = .error err →
    err ∈ (queue_custom inp compile cache0).2.errors)

/-- C2 (amended): in the parent/child variant, a host whose pipeline
specialization fails has its error logged and is skipped for that view, while
every other resolvable host and every view are still queued; `queue_custom` is
a total function of its inputs, so no failure aborts the frame.  (As stated the
claim is false for the cited direct-buffer variant, whose `queue_custom`
unwraps the specialization result and panics: see
`queue_custom_v1_aborts_on_failure`.) -/
theorem queue_custom_logs_and_skips
    (inp : QueueInput)
    (compile : Mesh2dPipelineKey → MeshVertexBufferLayout → Except SpecErr Unit)
    (cache0 : PipelineCacheState) (hg : CacheGood compile cache0) :
    QueueFailureHandling inp compile cache0 := by
  obtain ⟨_, _, ⟨ph, hph, hphok⟩, hfail⟩ :=
    queue_custom_fold_spec inp compile inp.views [] ⟨cache0, []⟩ hg
  have h1 : (queue_custom inp compile cache0).1 = ph := by
    have : (queue_custom inp compile cache0).1 =
        (inp.views.foldl (queueStep inp compile)
          ([], { cache := cache0, errors := [] })).1 := rfl
    rw [this, hph]
    simp
  constructor
  · rw [h1]
    refine List.Forall₂.imp ?_ hphok
    intro view phase hcore
    refine ⟨hcore.1, ?_, hcore.2⟩
    intro e mi mesh err hrmi hmesh herr t ht heq
    obtain ⟨mi', mesh', hrmi', hmesh', hok', _⟩ := hcore.1 t ht
    rw [heq, hrmi] at hrmi'
    injection hrmi' with hmi'
    subst hmi'
    rw [hmesh] at hmesh'
    injection hmesh' with hmesh''
    subst hmesh''
    rw [herr] at hok'
    cases hok'
  · intro view hview e he mi mesh err hrmi hmesh herr
    exact hfail view hview e he mi mesh err hrmi hmesh herr

/-- Closed instance of `queue_custom_logs_and_skips`: one view, host `0` with a
layout whose specialization fails, host `1` with a succeeding layout. -/
theorem queue_custom_logs_and_skips_witness :
    QueueFailureHandling
      { drawCustomId := 9, msaaSamples := 4, entities := [0, 1],
        renderMeshInstances := fun e =>
          if e = 0 then some { meshAssetId := 0, translation := ⟨1, 2, 3⟩ }
          else if e = 1 then some { meshAssetId := 1, translation := ⟨4, 5, 6⟩ }
          else none,
        meshes := fun m =>
          if m = 0 then some { primitiveTopology := .triangleList, layout := 0,
                               vertexBuffer := 10, vertexCount := 6,
                               bufferInfo := .nonIndexed }
          else if m = 1 then some { primitiveTopology := .triangleList, layout := 1,
                                    vertexBuffer := 11, vertexCount := 6,
                                    bufferInfo := .nonIndexed }
          else none,
        views := [{ hdr := false, viewTranslation := ⟨0, 0, 15⟩ }] }
      (fun _ l => if l = 0 then .error "bad vertex layout" else .ok ())
      { entries := [], nextId := 0, compiles := [] } :=
  queue_custom_logs_and_skips _ _ _ (by intro p hp; cases hp)

/-- C2 counterexample to the claim as stated: in the direct-buffer variant the
queue builder does not log and skip a failing host — it unwraps the
specialization result, so one failing host aborts (panics) the whole frame. -/
theorem queue_custom_v1_aborts_on_failure :
    queue_custom_v1
      { drawCustomId := 0, msaaSamples := 4, entities := [0],
        renderMeshInstances := fun e =>
          if e = 0 then some { meshAssetId := 0, translation := ⟨0, 0, 0⟩ }
          else none,
        meshes := fun m =>
          if m = 0 then some { primitiveTopology := .triangleList, layout := 0,
                               vertexBuffer := 0, vertexCount := 6,
                               bufferInfo := .nonIndexed }
          else none,
        views := [{ hdr := false, viewTranslation := ⟨0, 0, 15⟩ }] }
      (fun _ _ => .error "incompatible vertex layout")
      { entries := [], nextId := 0, compiles := [] } = none := by
  rfl

/-- Every queued entry's sort key equals the world-space translation z of its
host's extracted transform — stated per view, with a predicate that does not
depend on the view at all. -/
def SortKeyIsWorldZ
    (inp : QueueInput)
    (compile : Mesh2dPipelineKey → MeshVertexBufferLayout → Except SpecErr Unit)
    (cache0 : PipelineCacheState) : Prop :=
  List.Forall₂
    (fun _view phase => ∀ t ∈ phase, ∃ mi,
      inp.renderMeshInstances t.entity = some mi ∧
      t.sortKey = mi.translation.z)
    inp.views (queue_custom inp compile cache0).1

/-- C3 (amended): for every queued host and every view, the queue entry's sort
key equals the z component of the host's world transform translation — a
view-independent world coordinate, not the host's view-space depth (see
`queue_custom_sort_key_not_view_space_depth`). -/
theorem queue_custom_sort_key_world_z
    (inp : QueueInput)
    (compile : Mesh2dPipelineKey → MeshVertexBufferLayout → Except SpecErr Unit)
    (cache0 : PipelineCacheState) (hg : CacheGood compile cache0) :
    SortKeyIsWorldZ inp compile cache0 := by
  obtain ⟨_, _, ⟨ph, hph, hphok⟩, _⟩ :=
    queue_custom_fold_spec inp compile inp.views [] ⟨cache0, []⟩ hg
  have h1 : (queue_custom inp compile cache0).1 = ph := by
    have : (queue_custom inp compile cache0).1 =
        (inp.views.foldl (queueStep inp compile)
          ([], { cache := cache0, errors := [] })).1 := rfl
    rw [this, hph]
    simp
  unfold SortKeyIsWorldZ
  rw [h1]
  refine List.Forall₂.imp ?_ hphok
  intro view phase hcore t ht
  obtain ⟨mi, mesh, hrmi, _, _, hsort, _⟩ := hcore.1 t ht
  exact ⟨mi, hrmi, hsort⟩

/-- Closed instance of `queue_custom_sort_key_world_z` at a concrete one-view,
one-host input. -/
theorem queue_custom_sort_key_world_z_witness :
    SortKeyIsWorldZ
      { drawCustomId := 7, msaaSamples := 4, entities := [0],
        renderMeshInstances := fun e =>
          if e = 0 then some { meshAssetId := 0, translation := ⟨2, 3, -10⟩ }
          else none,
        meshes := fun m =>
          if m = 0 then some { primitiveTopology := .triangleList, layout := 0,
                               vertexBuffer := 0, vertexCount := 6,
                               bufferInfo := .nonIndexed }
          else none,
        views := [{ hdr := false, viewTranslation := ⟨0, 0, 15⟩ }] }
      (fun _ _ => .ok ())
      { entries := [], nextId := 0, compiles := [] } :=
  queue_custom_sort_key_world_z _ _ _ (by intro p hp; cases hp)

/-- C3 counterexample to the claim as stated: with the camera of the example at
world z 15 and a host at world z -10, the queued sort key is the host's world z
(-10) and not the host's view-space depth coordinate (-25); the sort key does
not depend on the view. -/
theorem queue_custom_sort_key_not_view_space_depth :
    (queue_custom
        { drawCustomId := 7, msaaSamples := 4, entities := [0],
          renderMeshInstances := fun e =>
            if e = 0 then some { meshAssetId := 0, translation := ⟨2, 3, -10⟩ }
            else none,
          meshes := fun m =>
            if m = 0 then some { primitiveTopology := .triangleList, layout := 0,
                                 vertexBuffer := 0, vertexCount := 6,
                                 bufferInfo := .nonIndexed }
            else none,
          views := [{ hdr := false, viewTranslation := ⟨0, 0, 15⟩ }] }
        (fun _ _ => .ok ())
        { entries := [], nextId := 0, compiles := [] }).1 =
      [[{ sortKey := -10, entity := 0, pipeline := 0, drawFunction := 7,
          batchRangeStart := 0, batchRangeEnd := 1, dynamicOffset := none }]] ∧
    viewSpaceDepth { hdr := false, viewTranslation := ⟨0, 0, 15⟩ } ⟨2, 3, -10⟩ = -25 ∧
    ((-10 : F32) ≠ -25) := by
  refine ⟨by rfl, by rfl, by decide⟩

/-- Modelled from the spec: a well-formed specialization cache state, as the
cache produces from its initial empty state — the compile-event log has no
duplicate keys, and every compiled key is cached. -/
def CacheWf (st : PipelineCacheState) : Prop :=
  st.compiles.Nodup ∧ ∀ kl ∈ st.compiles, findEntry st.entries kl ≠ none

/-- Occurrence count of an element in a list (with decidable equality). -/
def countOcc {α : Type} [DecidableEq α] (a : α) : List α → Nat
  | [] => 0
  | b :: t => (if b = a then 1 else 0) + countOcc a t

theorem countOcc_eq_zero_of_not_mem {α : Type} [DecidableEq α] (a : α)
    (l : List α) (h : a ∉ l) : countOcc a l = 0 := by
  induction l with
  | nil => rfl
  | cons b t ih =>
    have hba : b ≠ a := fun hba => h (hba ▸ List.mem_cons_self b t)
    have hat : a ∉ t := fun hat => h (List.mem_cons_of_mem b hat)
    simp [countOcc, if_neg hba, ih hat]

theorem countOcc_le_one_of_nodup {α : Type} [DecidableEq α] (l : List α)
    (h : l.Nodup) (a : α) : countOcc a l ≤ 1 := by
  induction l with
  | nil => simp [countOcc]
  | cons b t ih =>
    rcases List.nodup_cons.mp h with ⟨hb, ht⟩
    by_cases hba : b = a
    · subst hba
      have : countOcc b t = 0 := countOcc_eq_zero_of_not_mem b t hb
      simp [countOcc, this]
    · simp only [countOcc, if_neg hba, Nat.zero_add]
      exact ih ht

theorem cacheSpecialize_keeps_hit
    (compile : Mesh2dPipelineKey → MeshVertexBufferLayout → Except SpecErr Unit)
    (st : PipelineCacheState) (k k' : Mesh2dPipelineKey)
    (l l' : MeshVertexBufferLayout) (pid : Nat)
    (hfind : findEntry st.entries (k, l) = some pid) :
    findEntry (cacheSpecialize compile st k' l').2.entries (k, l) = some pid ∧
    countOcc (k, l) (cacheSpecialize compile st k' l').2.compiles =
      countOcc (k, l) st.compiles := by
  cases hf' : findEntry st.entries (k', l') with
  | some pid' => constructor <;> simp [cacheSpecialize, hf', hfind]
  | none =>
    have hne : ((k', l') : Mesh2dPipelineKey × MeshVertexBufferLayout) ≠ (k, l) := by
      intro heq
      rw [heq, hfind] at hf'
      cases hf'
    cases hc : compile k' l' with
    | error e => constructor <;> simp [cacheSpecialize, hf', hc, hfind]
    | ok u =>
      constructor
      · simp only [cacheSpecialize, hf', hc]
        simp only [findEntry, if_neg hne]
        exact hfind
      · simp only [cacheSpecialize, hf', hc]
        simp only [countOcc, if_neg hne, Nat.zero_add]

theorem runRequests_keeps_hit
    (compile : Mesh2dPipelineKey → MeshVertexBufferLayout → Except SpecErr Unit)
    (k : Mesh2dPipelineKey) (l : MeshVertexBufferLayout) (pid : Nat) :
    ∀ (reqs : List (Mesh2dPipelineKey × MeshVertexBufferLayout))
      (st : PipelineCacheState),
      findEntry st.entries (k, l) = some pid →
      countOcc (k, l) st.compiles ≤ 1 →
      findEntry (runRequests compile st reqs).entries (k, l) = some pid ∧
      countOcc (k, l) (runRequests compile st reqs).compiles ≤ 1 := by
  intro reqs
  induction reqs with
  | nil => intro st hfind hcount; exact ⟨hfind, hcount⟩
  | cons r t ih =>
    intro st hfind hcount
    rcases r with ⟨k', l'⟩
    obtain ⟨hfind', hcount'⟩ :=
      cacheSpecialize_keeps_hit compile st k k' l l' pid hfind
    exact ih (cacheSpecialize compile st k' l').2 hfind'
      (by rw [hcount']; exact hcount)

/-- C6: starting from a well-formed cache, once a key (view flags, topology and
mesh layout) has been specialized successfully, any further sequence of cache
requests — any keys, same frame or later frames — leaves that key cached: a
repeated request returns the identical pipeline id, and the compile-event log
holds that key at most once (no recompilation on second and subsequent
requests). -/
theorem pipeline_cache_single_compile
    (compile : Mesh2dPipelineKey → MeshVertexBufferLayout → Except SpecErr Unit)
    (st0 : PipelineCacheState) (k : Mesh2dPipelineKey)
    (l : MeshVertexBufferLayout) (pid : Nat) (st1 : PipelineCacheState)
    (reqs : List (Mesh2dPipelineKey × MeshVertexBufferLayout))
    (hwf : CacheWf st0)
    (h1 : cacheSpecialize compile st0 k l = (.ok pid, st1)) :
    (cacheSpecialize compile (runRequests compile st1 reqs) k l).1 = .ok pid ∧
    countOcc (k, l) (runRequests compile st1 reqs).compiles ≤ 1 := by
  have hinv : findEntry st1.entries (k, l) = some pid ∧
      countOcc (k, l) st1.compiles ≤ 1 := by
    cases hf : findEntry st0.entries (k, l) with
    | some pid0 =>
      have heq : cacheSpecialize compile st0 k l = (.ok pid0, st0) := by
        simp [cacheSpecialize, hf]
      rw [h1] at heq
      injection heq with hfst hsnd
      injection hfst with hpid
      subst hpid
      subst hsnd
      exact ⟨hf, countOcc_le_one_of_nodup _ hwf.1 _⟩
    | none =>
      cases hc : compile k l with
      | error e =>
        have heq : cacheSpecialize compile st0 k l = (.error e, st0) := by
          simp [cacheSpecialize, hf, hc]
        rw [h1] at heq
        injection heq with hfst hsnd
        exact Except.noConfusion hfst
      | ok u =>
        cases u
        have heq : cacheSpecialize compile st0 k l =
            (.ok st0.nextId,
             { entries := ((k, l), st0.nextId) :: st0.entries,
               nextId := st0.nextId + 1,
               compiles := (k, l) :: st0.compiles }) := by
          simp [cacheSpecialize, hf, hc]
        rw [h1] at heq
        injection heq with hfst hsnd
        injection hfst with hpid
        subst hpid
        rw [hsnd]
        constructor
        · simp [findEntry]
        · have hnot : ((k, l) : Mesh2dPipelineKey × MeshVertexBufferLayout) ∉
              st0.compiles := fun hmem => hwf.2 _ hmem hf
          simp [countOcc, countOcc_eq_zero_of_not_mem _ _ hnot]
  obtain ⟨hfind2, hcount2⟩ :=
    runRequests_keeps_hit compile k l pid reqs st1 hinv.1 hinv.2
  constructor
  · simp [cacheSpecialize, hfind2]
  · exact hcount2

/-- Closed instance of `pipeline_cache_single_compile`: an empty cache, a key
that compiles, and two repeated requests for the same key. -/
theorem pipeline_cache_single_compile_witness :
    (cacheSpecialize (fun _ _ => .ok ())
        (runRequests (fun _ _ => .ok ())
          { entries := [(( { msaaSamples := 4, hdr := false,
                             topology := .triangleList }, 0), 0)],
            nextId := 1,
            compiles := [({ msaaSamples := 4, hdr := false,
                            topology := .triangleList }, 0)] }
          [({ msaaSamples := 4, hdr := false, topology := .triangleList }, 0),
           ({ msaaSamples := 4, hdr := false, topology := .triangleList }, 0)])
        { msaaSamples := 4, hdr := false, topology := .triangleList } 0).1 =
      .ok 0 ∧
    countOcc
      (({ msaaSamples := 4, hdr := false, topology := .triangleList } :
          Mesh2dPipelineKey), (0 : MeshVertexBufferLayout))
      (runRequests (fun _ _ => .ok ())
        { entries := [(( { msaaSamples := 4, hdr := false,
                           topology := .triangleList }, 0), 0)],
          nextId := 1,
          compiles := [({ msaaSamples := 4, hdr := false,
                          topology := .triangleList }, 0)] }
        [({ msaaSamples := 4, hdr := false, topology := .triangleList }, 0),
         ({ msaaSamples := 4, hdr := false, topology := .triangleList }, 0)]).compiles ≤ 1 :=
  pipeline_cache_single_compile (fun _ _ => .ok ())
    { entries := [], nextId := 0, compiles := [] }
    { msaaSamples := 4, hdr := false, topology := .triangleList } 0 0
    { entries := [(( { msaaSamples := 4, hdr := false,
                       topology := .triangleList }, 0), 0)],
      nextId := 1,
      compiles := [({ msaaSamples := 4, hdr := false,
                      topology := .triangleList }, 0)] }
    [({ msaaSamples := 4, hdr := false, topology := .triangleList }, 0),
     ({ msaaSamples := 4, hdr := false, topology := .triangleList }, 0)]
    ⟨List.nodup_nil, by simp⟩ (by rfl)

/-! ## Byte layout of `InstanceData` and the GPU buffer preparer -/

/-- Size in bytes of one `InstanceData` record,
`std::mem::size_of::<InstanceData>()`: the `#[repr(C)]` struct holds three
position floats, one scale float and four color floats, each 4 bytes and
4-aligned, so the layout is tightly packed with no padding. -/
def instanceDataSize : Nat := 3 * 4 + 4 + 4 * 4

/-- The four little-endian bytes of a 32-bit word. -/
def bytesOfWord (w : Nat) : List Nat :=
  [w % 256, w / 256 % 256, w / 65536 % 256, w / 16777216 % 256]

/-- The four bytes of one `f32` value under the IEEE-754 bit encoding `enc`
(the encoding itself is opaque to every claim). -/
def f32Bytes (enc : Int → Nat) (v : F32) : List Nat :=
  bytesOfWord (enc v)

/-- The byte image of one `#[repr(C)]` `InstanceData` record: the fields in
declaration order — position x, y, z, scale, then the four color components —
each as four bytes, with no padding. -/
def instanceDataBytes (enc : Int → Nat) (d : InstanceData) : List Nat :=
  f32Bytes enc d.position.x ++ f32Bytes enc d.position.y ++
  f32Bytes enc d.position.z ++ f32Bytes enc d.scale ++
  f32Bytes enc d.color.r ++ f32Bytes enc d.color.g ++
  f32Bytes enc d.color.b ++ f32Bytes enc d.color.a

/-- Model of `bytemuck::cast_slice` on a slice of `InstanceData`: the
concatenated per-record byte images (stride `instanceDataSize`). -/
def castSlice (enc : Int → Nat) (records : List InstanceData) : List Nat :=
  (records.map (instanceDataBytes enc)).flatten

theorem f32Bytes_length (enc : Int → Nat) (v : F32) :
    (f32Bytes enc v).length = 4 := rfl

theorem instanceDataBytes_length (enc : Int → Nat) (d : InstanceData) :
    (instanceDataBytes enc d).length = instanceDataSize := rfl

theorem castSlice_length (enc : Int → Nat) (records : List InstanceData) :
    (castSlice enc records).length = instanceDataSize * records.length := by
  induction records with
  | nil => simp [castSlice, instanceDataSize]
  | cons d t ih =>
    simp only [castSlice, List.map_cons, List.flatten_cons] at ih ⊢
    rw [List.length_append, ih, instanceDataBytes_length, List.length_cons]
    ring

/-- C8: the `InstanceData` record has a fixed compile-time stride of 32 bytes
(8 x 4 bytes: three position floats, one scale float, four color floats), laid
out tightly packed in that order: position occupies bytes 0-11, scale bytes
12-15, color bytes 16-31, with no implicit padding. -/
theorem instance_record_layout (enc : Int → Nat) (d : InstanceData) :
    instanceDataSize = 32 ∧
    (instanceDataBytes enc d).length = 32 ∧
    (instanceDataBytes enc d).take 12 =
      f32Bytes enc d.position.x ++ f32Bytes enc d.position.y ++
      f32Bytes enc d.position.z ∧
    ((instanceDataBytes enc d).drop 12).take 4 = f32Bytes enc d.scale ∧
    (instanceDataBytes enc d).drop 16 =
      f32Bytes enc d.color.r ++ f32Bytes enc d.color.g ++
      f32Bytes enc d.color.b ++ f32Bytes enc d.color.a ∧
    ∀ v, (f32Bytes enc v).length = 4 := by
  refine ⟨rfl, rfl, ?_, ?_, ?_, fun v => rfl⟩ <;>
    simp [instanceDataBytes, f32Bytes, bytesOfWord]

/-- Model of `wgpu::BufferUsages` restricted to the two flags the program
sets (`BufferUsages::VERTEX | BufferUsages::COPY_DST`). -/
structure BufferUsages where
  vertex : Bool
  copyDst : Bool
deriving DecidableEq, Repr

/-- Model of `BufferInitDescriptor` as `prepare_instance_buffers` fills it. -/
structure BufferInitDescriptor where
  label : Option String
  contents : List Nat
  usage : BufferUsages
deriving DecidableEq, Repr

/-- A GPU-visible buffer as the render device records it at creation; reading
the uploaded bytes back yields `contents`. -/
structure GpuBuffer where
  label : Option String
  contents : List Nat
  usage : BufferUsages
deriving DecidableEq, Repr

/-- Model of the `RenderDevice`: the buffers allocated so far; a buffer handle
is an index into this list. -/
structure RenderDevice where
  buffers : List GpuBuffer
deriving DecidableEq, Repr

/-- Model of `render_device.create_buffer_with_data`: allocate a fresh buffer
initialized with the descriptor's bytes and return its handle. -/
def createBufferWithData (dev : RenderDevice) (desc : BufferInitDescriptor) :
    Nat × RenderDevice :=
  (dev.buffers.length,
   { buffers := dev.buffers ++
      [{ label := desc.label, contents := desc.contents, usage := desc.usage }] })

/-- Model of the `InstanceBuffer` component: a device buffer handle plus the
record count. -/
structure InstanceBuffer where
  buffer : Nat
  length : Nat
deriving DecidableEq, Repr

/-- Model of `prepare_instance_buffers` (v0.12.1 lines 208-225; the
direct-buffer variant is identical up to the component name): for each host of
the query, create a fresh GPU buffer holding `cast_slice` of the host's record
buffer with usage `VERTEX | COPY_DST`, and insert an `InstanceBuffer` component
on the host (replacing any previous one) recording the handle and the record
count.  `world` maps each entity to its current `InstanceBuffer` component. -/
def prepare_instance_buffers (enc : Int → Nat)
    (query : List (Entity × InstancedMaterialHost)) (dev : RenderDevice)
    (world : Entity → Option InstanceBuffer) :
    RenderDevice × (Entity → Option InstanceBuffer) :=
  query.foldl
    (fun s ei =>
      let r := createBufferWithData s.1
        { label := some "instance data buffer",
          contents := castSlice enc ei.2.buffer,
          usage := { vertex := true, copyDst := true } }
      (r.2,
       fun e => if e = ei.1 then
         some { buffer := r.1, length := ei.2.buffer.length }
       else s.2 e))
    (dev, world)

/-- A default GPU buffer, used only as the out-of-range value of `List.getD` in
statements about buffer handles. -/
def dummyBuffer : GpuBuffer :=
  { label := none, contents := [], usage := { vertex := false, copyDst := false } }

theorem getD_append_length {α : Type} (l : List α) (b : α) (d : α) :
    (l ++ [b]).getD l.length d = b := by
  induction l with
  | nil => rfl
  | cons a t ih =>
    simp only [List.cons_append, List.length_cons, List.getD_cons_succ]
    exact ih

theorem getD_append_left {α : Type} (l1 l2 : List α) (d : α) :
    ∀ i, i < l1.length → (l1 ++ l2).getD i d = l1.getD i d := by
  induction l1 with
  | nil => intro i hi; simp at hi
  | cons a t ih =>
    intro i hi
    cases i with
    | zero => rfl
    | succ j =>
      simp only [List.cons_append, List.getD_cons_succ]
      exact ih j (by simpa using hi)

theorem prepare_instance_buffers_device_extends (enc : Int → Nat) :
    ∀ (query : List (Entity × InstancedMaterialHost)) (dev : RenderDevice)
      (world : Entity → Option InstanceBuffer),
      ∃ rest, (prepare_instance_buffers enc query dev world).1.buffers =
        dev.buffers ++ rest := by
  intro query
  induction query with
  | nil => intro dev world; exact ⟨[], by simp [prepare_instance_buffers]⟩
  | cons ei t ih =>
    intro dev world
    obtain ⟨rest, hrest⟩ := ih
      { buffers := dev.buffers ++
        [{ label := some "instance data buffer",
           contents := castSlice enc ei.2.buffer,
           usage := { vertex := true, copyDst := true } }] }
      (fun e => if e = ei.1 then
        some { buffer := dev.buffers.length, length := ei.2.buffer.length }
      else world e)
    refine ⟨{ label := some "instance data buffer",
              contents := castSlice enc ei.2.buffer,
              usage := { vertex := true, copyDst := true } } :: rest, ?_⟩
    have hstep : prepare_instance_buffers enc (ei :: t) dev world =
        prepare_instance_buffers enc t
          { buffers := dev.buffers ++
            [{ label := some "instance data buffer",
               contents := castSlice enc ei.2.buffer,
               usage := { vertex := true, copyDst := true } }] }
          (fun e => if e = ei.1 then
            some { buffer := dev.buffers.length, length := ei.2.buffer.length }
          else world e) := rfl
    rw [hstep, hrest]
    simp

theorem prepare_instance_buffers_world_untouched (enc : Int → Nat) :
    ∀ (query : List (Entity × InstancedMaterialHost)) (dev : RenderDevice)
      (world : Entity → Option InstanceBuffer) (e : Entity),
      e ∉ query.map Prod.fst →
      (prepare_instance_buffers enc query dev world).2 e = world e := by
  intro query
  induction query with
  | nil => intro dev world e _; rfl
  | cons ei t ih =>
    intro dev world e he
    have hne : e ≠ ei.1 := by
      intro h
      exact he (by simp [h])
    have het : e ∉ t.map Prod.fst := by
      intro h
      exact he (by simp [h])
    have hstep : prepare_instance_buffers enc (ei :: t) dev world =
        prepare_instance_buffers enc t
          { buffers := dev.buffers ++
            [{ label := some "instance data buffer",
               contents := castSlice enc ei.2.buffer,
               usage := { vertex := true, copyDst := true } }] }
          (fun e' => if e' = ei.1 then
            some { buffer := dev.buffers.length, length := ei.2.buffer.length }
          else world e') := rfl
    rw [hstep, ih _ _ e het]
    simp [if_neg hne]

/-- C7: for every host of the query (queried entities are distinct, as an ECS
query yields), `prepare_instance_buffers` attaches a fresh instance buffer
component whose record count equals the host's record count and whose handle is
a newly allocated device buffer (allocated this run, replacing whatever the
previous frame attached); reading the uploaded bytes back from the device
yields exactly the tightly packed `cast_slice` image of the host's records,
with length `instanceDataSize *` record count, labelled and tagged with vertex
and copy-destination usage. -/
theorem prepare_instance_buffers_round_trip (enc : Int → Nat) :
    ∀ (query : List (Entity × InstancedMaterialHost)) (dev : RenderDevice)
      (world : Entity → Option InstanceBuffer),
      (query.map Prod.fst).Nodup →
      ∀ ei ∈ query, ∃ h,
        (prepare_instance_buffers enc query dev world).2 ei.1 =
          some { buffer := h, length := ei.2.buffer.length } ∧
        dev.buffers.length ≤ h ∧
        (prepare_instance_buffers enc query dev world).1.buffers.getD h dummyBuffer =
          { label := some "instance data buffer",
            contents := castSlice enc ei.2.buffer,
            usage := { vertex := true, copyDst := true } } ∧
        (castSlice enc ei.2.buffer).length =
          instanceDataSize * ei.2.buffer.length := by
  intro query
  induction query with
  | nil => intro dev world _ ei hei; cases hei
  | cons e0 t ih =>
    intro dev world hnd ei hei
    rw [List.map_cons] at hnd
    have hcons := List.nodup_cons.mp hnd
    have hnd' : (t.map Prod.fst).Nodup := hcons.2
    have hne0 : e0.1 ∉ t.map Prod.fst := hcons.1
    have hstep : prepare_instance_buffers enc (e0 :: t) dev world =
        prepare_instance_buffers enc t
          { buffers := dev.buffers ++
            [{ label := some "instance data buffer",
               contents := castSlice enc e0.2.buffer,
               usage := { vertex := true, copyDst := true } }] }
          (fun e' => if e' = e0.1 then
            some { buffer := dev.buffers.length, length := e0.2.buffer.length }
          else world e') := rfl
    rcases List.mem_cons.mp hei with rfl | hei
    · refine ⟨dev.buffers.length, ?_, Nat.le_refl _, ?_, castSlice_length enc _⟩
      · rw [hstep,
          prepare_instance_buffers_world_untouched enc t _ _ ei.1 hne0]
        simp
      · rw [hstep]
        obtain ⟨rest, hrest⟩ := prepare_instance_buffers_device_extends enc t
          { buffers := dev.buffers ++
            [{ label := some "instance data buffer",
               contents := castSlice enc ei.2.buffer,
               usage := { vertex := true, copyDst := true } }] }
          (fun e' => if e' = ei.1 then
            some { buffer := dev.buffers.length, length := ei.2.buffer.length }
          else world e')
        rw [hrest]
        show (dev.buffers ++
            [({ label := some "instance data buffer",
                contents := castSlice enc ei.2.buffer,
                usage := { vertex := true, copyDst := true } } : GpuBuffer)] ++
            rest).getD dev.buffers.length dummyBuffer =
          ({ label := some "instance data buffer",
             contents := castSlice enc ei.2.buffer,
             usage := { vertex := true, copyDst := true } } : GpuBuffer)
        rw [getD_append_left
          (dev.buffers ++
            [({ label := some "instance data buffer",
                contents := castSlice enc ei.2.buffer,
                usage := { vertex := true, copyDst := true } } : GpuBuffer)])
          rest dummyBuffer dev.buffers.length (by simp)]
        exact getD_append_length dev.buffers _ dummyBuffer
    · obtain ⟨h, h1, h2, h3, h4⟩ := ih
        { buffers := dev.buffers ++
          [{ label := some "instance data buffer",
             contents := castSlice enc e0.2.buffer,
             usage := { vertex := true, copyDst := true } }] }
        (fun e' => if e' = e0.1 then
          some { buffer := dev.buffers.length, length := e0.2.buffer.length }
        else world e') hnd' ei hei
      refine ⟨h, ?_, ?_, ?_, h4⟩
      · rw [hstep]; exact h1
      · refine Nat.le_trans ?_ h2
        simp
      · rw [hstep]; exact h3

/-- Closed instance of `prepare_instance_buffers_round_trip` for host `3` of a
two-host query. -/
theorem prepare_instance_buffers_round_trip_witness :
    ∃ h,
      (prepare_instance_buffers (fun v => v.toNat)
          [((3 : Entity),
            ({ buffer := [{ position := ⟨1, 2, 3⟩, scale := 1,
                            color := ⟨1, 0, 0, 1⟩ }] } : InstancedMaterialHost)),
           ((4 : Entity), ({ buffer := [] } : InstancedMaterialHost))]
          { buffers := [dummyBuffer] } (fun _ => none)).2 3 =
        some { buffer := h, length := 1 } ∧
      ({ buffers := [dummyBuffer] } : RenderDevice).buffers.length ≤ h ∧
      (prepare_instance_buffers (fun v => v.toNat)
          [((3 : Entity),
            ({ buffer := [{ position := ⟨1, 2, 3⟩, scale := 1,
                            color := ⟨1, 0, 0, 1⟩ }] } : InstancedMaterialHost)),
           ((4 : Entity), ({ buffer := [] } : InstancedMaterialHost))]
          { buffers := [dummyBuffer] } (fun _ => none)).1.buffers.getD h dummyBuffer =
        { label := some "instance data buffer",
          contents := castSlice (fun v => v.toNat)
            [{ position := ⟨1, 2, 3⟩, scale := 1, color := ⟨1, 0, 0, 1⟩ }],
          usage := { vertex := true, copyDst := true } } ∧
      (castSlice (fun v => v.toNat)
          [{ position := ⟨1, 2, 3⟩, scale := 1, color := ⟨1, 0, 0, 1⟩ }]).length =
        instanceDataSize * 1 :=
  prepare_instance_buffers_round_trip (fun v => v.toNat)
    [((3 : Entity),
      ({ buffer := [{ position := ⟨1, 2, 3⟩, scale := 1,
                      color := ⟨1, 0, 0, 1⟩ }] } : InstancedMaterialHost)),
     ((4 : Entity), ({ buffer := [] } : InstancedMaterialHost))]
    { buffers := [dummyBuffer] } (fun _ => none) (by decide)
    ((3 : Entity),
      ({ buffer := [{ position := ⟨1, 2, 3⟩, scale := 1,
                      color := ⟨1, 0, 0, 1⟩ }] } : InstancedMaterialHost))
    (List.mem_cons_self _ _)

/-! ## Custom pipeline specialization -/

/-- Model of `VertexFormat`: the one format the program names, plus opaque
formats of the base layout with their byte size. -/
inductive VertexFormat
  | float32x4
  | otherFormat (byteSize : Nat)
deriving DecidableEq, Repr

/-- Model of `VertexFormat::size()` in bytes (`Float32x4.size() = 16`). -/
def VertexFormat.size : VertexFormat → Nat
  | .float32x4 => 16
  | .otherFormat s => s

/-- Model of `wgpu::VertexAttribute`. -/
structure VertexAttribute where
  format : VertexFormat
  offset : Nat
  shaderLocation : Nat
deriving DecidableEq, Repr

/-- Model of `VertexStepMode` (`Vertex` or `Instance` stepping). -/
inductive VertexStepMode
  | perVertex
  | perInstance
deriving DecidableEq, Repr

/-- Model of `VertexBufferLayout`. -/
structure VertexBufferLayout where
  arrayStride : Nat
  stepMode : VertexStepMode
  attributes : List VertexAttribute
deriving DecidableEq, Repr

/-- Model of the vertex half of a `RenderPipelineDescriptor`. -/
structure VertexState where
  shader : Nat
  entryPoint : String
  shaderDefs : List String
  buffers : List VertexBufferLayout
deriving DecidableEq, Repr

/-- Model of the fragment half of a `RenderPipelineDescriptor` (targets kept
opaque). -/
structure FragmentState where
  shader : Nat
  entryPoint : String
  shaderDefs : List String
  targets : List Nat
deriving DecidableEq, Repr

/-- Model of `RenderPipelineDescriptor`; the fields `CustomPipeline::specialize`
never touches (label, bind group layout, push constant ranges, primitive state,
depth-stencil state, multisample state) are kept opaque. -/
structure RenderPipelineDescriptor where
  label : Option String
  layout : List Nat
  pushConstantRanges : List Nat
  vertex : VertexState
  fragment : Option FragmentState
  primitive : Nat
  depthStencil : Option Nat
  multisample : Nat
deriving DecidableEq, Repr

/-- Model of the `CustomPipeline` resource: the handle of the custom shader
module (`shaders/instancing.wgsl`) and the base mesh pipeline's specialization
(`Mesh2dPipeline::specialize`, code outside this repository, abstracted as a
function). -/
structure CustomPipeline where
  shader : Nat
  meshPipelineSpecialize :
    Mesh2dPipelineKey → MeshVertexBufferLayout →
      Except SpecErr RenderPipelineDescriptor

/-- The per-instance vertex buffer layout `CustomPipeline::specialize` appends:
array stride `size_of::<InstanceData>()`, instance stepping, one Float32x4
attribute at shader location 3 with byte offset 0 and one Float32x4 attribute
at shader location 4 with byte offset `VertexFormat::Float32x4.size()`. -/
def instanceVertexBufferLayout : VertexBufferLayout :=
  { arrayStride := instanceDataSize,
    stepMode := .perInstance,
    attributes :=
      [{ format := .float32x4, offset := 0, shaderLocation := 3 },
       { format := .float32x4, offset := VertexFormat.float32x4.size,
         shaderLocation := 4 }] }

/-- Model of `CustomPipeline::specialize` (identical in both variants): run the
base mesh pipeline specialization (propagating its error), push the
`MESH_BINDGROUP_1` shader def, set the vertex shader to the custom module,
append the per-instance vertex buffer layout, and set the fragment shader to
the custom module via `descriptor.fragment.as_mut().unwrap()` — a panic
(`none`) when the base descriptor carries no fragment state. -/
def CustomPipeline.specialize (p : CustomPipeline) (key : Mesh2dPipelineKey)
    (layout : MeshVertexBufferLayout) :
    Option (Except SpecErr RenderPipelineDescriptor) :=
  match p.meshPipelineSpecialize key layout with
  | .error e => some (.error e)
  | .ok d =>
    match d.fragment with
    | none => none
    | some fr =>
      some (.ok
        { d with
          vertex :=
            { d.vertex with
              shader := p.shader,
              shaderDefs := d.vertex.shaderDefs ++ ["MESH_BINDGROUP_1"],
              buffers := d.vertex.buffers ++ [instanceVertexBufferLayout] },
          fragment := some { fr with shader := p.shader } })

/-- Exactly the changes `CustomPipeline::specialize` applies to the base
descriptor `d`, field by field: the shader-def flag for bind group slot 1 is
appended, one per-instance vertex buffer layout is appended, the vertex and
fragment shaders are set to the custom module, and every other field is
unchanged. -/
def SpecializeAugmented (p : CustomPipeline) (d d' : RenderPipelineDescriptor)
    (fr : FragmentState) : Prop :=
  d'.vertex.shader = p.shader ∧
  d'.vertex.shaderDefs = d.vertex.shaderDefs ++ ["MESH_BINDGROUP_1"] ∧
  d'.vertex.buffers = d.vertex.buffers ++ [instanceVertexBufferLayout] ∧
  d'.vertex.entryPoint = d.vertex.entryPoint ∧
  d'.fragment = some { fr with shader := p.shader } ∧
  (∀ fr', d'.fragment = some fr' → fr'.shader = p.shader ∧
    fr'.entryPoint = fr.entryPoint ∧ fr'.shaderDefs = fr.shaderDefs ∧
    fr'.targets = fr.targets) ∧
  d'.label = d.label ∧
  d'.layout = d.layout ∧
  d'.pushConstantRanges = d.pushConstantRanges ∧
  d'.primitive = d.primitive ∧
  d'.depthStencil = d.depthStencil ∧
  d'.multisample = d.multisample

/-- C4: whenever the base mesh pipeline specialization succeeds (with a
fragment state, as bevy's 2d mesh pipeline always produces),
`CustomPipeline::specialize` returns the base descriptor changed exactly by:
adding the `MESH_BINDGROUP_1` shader def, appending one per-instance vertex
buffer layout of stride `size_of::<InstanceData>() = 32` with a Float32x4
attribute at location 3 / offset 0 and a Float32x4 attribute at location 4 /
offset 16, and pointing both vertex and fragment shaders at the custom
module. -/
theorem custom_pipeline_specialize_augments (p : CustomPipeline)
    (key : Mesh2dPipelineKey) (layout : MeshVertexBufferLayout)
    (d : RenderPipelineDescriptor) (fr : FragmentState)
    (hbase : p.meshPipelineSpecialize key layout = .ok d)
    (hfr : d.fragment = some fr) :
    (∃ d', p.specialize key layout = some (.ok d') ∧
      SpecializeAugmented p d d' fr) ∧
    instanceVertexBufferLayout.arrayStride = instanceDataSize ∧
    instanceVertexBufferLayout.arrayStride = 32 ∧
    instanceVertexBufferLayout.stepMode = .perInstance ∧
    instanceVertexBufferLayout.attributes =
      [{ format := .float32x4, offset := 0, shaderLocation := 3 },
       { format := .float32x4, offset := 16, shaderLocation := 4 }] := by
  refine ⟨?_, rfl, rfl, rfl, rfl⟩
  refine ⟨{ d with
      vertex :=
        { d.vertex with
          shader := p.shader,
          shaderDefs := d.vertex.shaderDefs ++ ["MESH_BINDGROUP_1"],
          buffers := d.vertex.buffers ++ [instanceVertexBufferLayout] },
      fragment := some { fr with shader := p.shader } }, ?_, ?_⟩
  · simp [CustomPipeline.specialize, hbase, hfr]
  · refine ⟨rfl, rfl, rfl, rfl, rfl, ?_, rfl, rfl, rfl, rfl, rfl, rfl⟩
    intro fr' hfr'
    injection hfr' with h
    subst h
    exact ⟨rfl, rfl, rfl, rfl⟩

/-- Closed instance of `custom_pipeline_specialize_augments` at a concrete base
pipeline and descriptor. -/
theorem custom_pipeline_specialize_augments_witness :
    (∃ d', CustomPipeline.specialize
        { shader := 42,
          meshPipelineSpecialize := fun _ _ => .ok
            { label := some "mesh2d", layout := [0, 1],
              pushConstantRanges := [], vertex :=
                { shader := 5, entryPoint := "vertex",
                  shaderDefs := ["BASE"], buffers :=
                    [{ arrayStride := 20, stepMode := .perVertex,
                       attributes :=
                         [{ format := .otherFormat 12, offset := 0,
                            shaderLocation := 0 }] }] },
              fragment := some
                { shader := 5, entryPoint := "fragment",
                  shaderDefs := ["BASE"], targets := [1] },
              primitive := 3, depthStencil := none, multisample := 4 } }
        { msaaSamples := 4, hdr := false, topology := .triangleList } 0 =
        some (.ok d') ∧
      SpecializeAugmented
        { shader := 42,
          meshPipelineSpecialize := fun _ _ => .ok
            { label := some "mesh2d", layout := [0, 1],
              pushConstantRanges := [], vertex :=
                { shader := 5, entryPoint := "vertex",
                  shaderDefs := ["BASE"], buffers :=
                    [{ arrayStride := 20, stepMode := .perVertex,
                       attributes :=
                         [{ format := .otherFormat 12, offset := 0,
                            shaderLocation := 0 }] }] },
              fragment := some
                { shader := 5, entryPoint := "fragment",
                  shaderDefs := ["BASE"], targets := [1] },
              primitive := 3, depthStencil := none, multisample := 4 } }
        { label := some "mesh2d", layout := [0, 1],
          pushConstantRanges := [], vertex :=
            { shader := 5, entryPoint := "vertex",
              shaderDefs := ["BASE"], buffers :=
                [{ arrayStride := 20, stepMode := .perVertex,
                   attributes :=
                     [{ format := .otherFormat 12, offset := 0,
                        shaderLocation := 0 }] }] },
          fragment := some
            { shader := 5, entryPoint := "fragment",
              shaderDefs := ["BASE"], targets := [1] },
          primitive := 3, depthStencil := none, multisample := 4 }
        d'
        { shader := 5, entryPoint := "fragment",
          shaderDefs := ["BASE"], targets := [1] }) ∧
    instanceVertexBufferLayout.arrayStride = instanceDataSize ∧
    instanceVertexBufferLayout.arrayStride = 32 ∧
    instanceVertexBufferLayout.stepMode = .perInstance ∧
    instanceVertexBufferLayout.attributes =
      [{ format := .float32x4, offset := 0, shaderLocation := 3 },
       { format := .float32x4, offset := 16, shaderLocation := 4 }] :=
  custom_pipeline_specialize_augments
    { shader := 42,
      meshPipelineSpecialize := fun _ _ => .ok
        { label := some "mesh2d", layout := [0, 1],
          pushConstantRanges := [], vertex :=
            { shader := 5, entryPoint := "vertex",
              shaderDefs := ["BASE"], buffers :=
                [{ arrayStride := 20, stepMode := .perVertex,
                   attributes :=
                     [{ format := .otherFormat 12, offset := 0,
                        shaderLocation := 0 }] }] },
          fragment := some
            { shader := 5, entryPoint := "fragment",
              shaderDefs := ["BASE"], targets := [1] },
          primitive := 3, depthStencil := none, multisample := 4 } }
    { msaaSamples := 4, hdr := false, topology := .triangleList } 0
    { label := some "mesh2d", layout := [0, 1],
      pushConstantRanges := [], vertex :=
        { shader := 5, entryPoint := "vertex",
          shaderDefs := ["BASE"], buffers :=
            [{ arrayStride := 20, stepMode := .perVertex,
               attributes :=
                 [{ format := .otherFormat 12, offset := 0,
                    shaderLocation := 0 }] }] },
      fragment := some
        { shader := 5, entryPoint := "fragment",
          shaderDefs := ["BASE"], targets := [1] },
      primitive := 3, depthStencil := none, multisample := 4 }
    { shader := 5, entryPoint := "fragment",
      shaderDefs := ["BASE"], targets := [1] }
    rfl rfl

/-! ## The draw command sequencer -/

/-- Model of `RenderCommandResult`. -/
inductive RenderCommandResult
  | success
  | failure
deriving DecidableEq, Repr

/-- One recorded render-pass command of `DrawMeshInstanced::render`; ranges are
(start, end) pairs as in the source's `a..b`. -/
inductive PassCommand
  | setVertexBuffer (slot : Nat) (buffer : Nat)
  | setIndexBuffer (buffer : Nat) (offset : Nat) (indexFormat : Nat)
  | drawIndexed (indexStart indexEnd : Nat) (baseVertex : Nat)
      (instanceStart instanceEnd : Nat)
  | draw (vertexStart vertexEnd : Nat) (instanceStart instanceEnd : Nat)
deriving DecidableEq, Repr

/-- Model of `DrawMeshInstanced::render` (identical in both variants): resolve
the mesh instance of the item's entity, then the GPU mesh of its asset id; if
either is missing return `Failure` with no command issued; otherwise bind the
mesh vertex buffer at slot 0 and the instance buffer at slot 1, then for an
indexed mesh bind the index buffer and issue one indexed draw over
`0..count`, else one non-indexed draw over `0..vertex_count`, both with
instance range `0..instance_buffer.length`, and return `Success`. -/
def DrawMeshInstanced.render (itemEntity : Entity)
    (renderMeshInstances : Entity → Option RenderMesh2dInstance)
    (meshes : Nat → Option GpuMesh) (instanceBuffer : InstanceBuffer) :
    RenderCommandResult × List PassCommand :=
  match renderMeshInstances itemEntity with
  | none => (.failure, [])
  | some meshInstance =>
    match meshes meshInstance.meshAssetId with
    | none => (.failure, [])
    | some gpuMesh =>
      match gpuMesh.bufferInfo with
      | .indexed buffer indexFormat count =>
        (.success,
         [.setVertexBuffer 0 gpuMesh.vertexBuffer,
          .setVertexBuffer 1 instanceBuffer.buffer,
          .setIndexBuffer buffer 0 indexFormat,
          .drawIndexed 0 count 0 0 instanceBuffer.length])
      | .nonIndexed =>
        (.success,
         [.setVertexBuffer 0 gpuMesh.vertexBuffer,
          .setVertexBuffer 1 instanceBuffer.buffer,
          .draw 0 gpuMesh.vertexCount 0 instanceBuffer.length])

/-- C5: for every queue entry, if the mesh instance or the GPU mesh cannot be
resolved, `DrawMeshInstanced::render` returns `Failure` having issued no
render-pass command; if both resolve it binds the mesh vertex buffer at slot 0
and the instance buffer at slot 1, then for an indexed mesh binds the index
buffer and issues one indexed draw over the full index range, else one
non-indexed draw over the full vertex range, in both cases with instance count
equal to the instance buffer's record count. -/
theorem draw_mesh_instanced_render_spec (itemEntity : Entity)
    (renderMeshInstances : Entity → Option RenderMesh2dInstance)
    (meshes : Nat → Option GpuMesh) (ib : InstanceBuffer) :
    (renderMeshInstances itemEntity = none →
      DrawMeshInstanced.render itemEntity renderMeshInstances meshes ib =
        (.failure, [])) ∧
    (∀ mi, renderMeshInstances itemEntity = some mi →
      meshes mi.meshAssetId = none →
      DrawMeshInstanced.render itemEntity renderMeshInstances meshes ib =
        (.failure, [])) ∧
    (∀ mi gm, renderMeshInstances itemEntity = some mi →
      meshes mi.meshAssetId = some gm →
      (∀ b fmt cnt, gm.bufferInfo = .indexed b fmt cnt →
        DrawMeshInstanced.render itemEntity renderMeshInstances meshes ib =
          (.success,
           [.setVertexBuffer 0 gm.vertexBuffer,
            .setVertexBuffer 1 ib.buffer,
            .setIndexBuffer b 0 fmt,
            .drawIndexed 0 cnt 0 0 ib.length])) ∧
      (gm.bufferInfo = .nonIndexed →
        DrawMeshInstanced.render itemEntity renderMeshInstances meshes ib =
          (.success,
           [.setVertexBuffer 0 gm.vertexBuffer,
            .setVertexBuffer 1 ib.buffer,
            .draw 0 gm.vertexCount 0 ib.length]))) := by
  refine ⟨?_, ?_, ?_⟩
  · intro h
    simp [DrawMeshInstanced.render, h]
  · intro mi h1 h2
    simp [DrawMeshInstanced.render, h1, h2]
  · intro mi gm h1 h2
    constructor
    · intro b fmt cnt hinfo
      simp [DrawMeshInstanced.render, h1, h2, hinfo]
    · intro hinfo
      simp [DrawMeshInstanced.render, h1, h2, hinfo]

/-- C9: a host with zero children aggregates to a zero-record buffer; buffer
preparation attaches an instance buffer with record count 0 whose freshly
created device buffer holds zero bytes; and on a host whose mesh resolves the
draw command sequencer returns `Success` (not the missing-resource failure)
issuing one draw whose instance range is `0..0`, for the indexed and the
non-indexed case alike. -/
theorem zero_children_zero_instance_draw (w : ChildWorld)
    (host : InstancedMaterialHost) (enc : Int → Nat) (dev : RenderDevice)
    (world : Entity → Option InstanceBuffer) (e : Entity)
    (renderMeshInstances : Entity → Option RenderMesh2dInstance)
    (meshes : Nat → Option GpuMesh) (mi : RenderMesh2dInstance) (gm : GpuMesh)
    (hrmi : renderMeshInstances e = some mi)
    (hgm : meshes mi.meshAssetId = some gm) :
    prepareBufferHost w host [] = some { buffer := [] } ∧
    (prepare_instance_buffers enc [(e, { buffer := [] })] dev world).2 e =
      some { buffer := dev.buffers.length, length := 0 } ∧
    (prepare_instance_buffers enc [(e, { buffer := [] })] dev
        world).1.buffers.getD dev.buffers.length dummyBuffer =
      { label := some "instance data buffer", contents := [],
        usage := { vertex := true, copyDst := true } } ∧
    (∀ b fmt cnt, gm.bufferInfo = .indexed b fmt cnt →
      DrawMeshInstanced.render e renderMeshInstances meshes
          { buffer := dev.buffers.length, length := 0 } =
        (.success,
         [.setVertexBuffer 0 gm.vertexBuffer,
          .setVertexBuffer 1 dev.buffers.length,
          .setIndexBuffer b 0 fmt,
          .drawIndexed 0 cnt 0 0 0])) ∧
    (gm.bufferInfo = .nonIndexed →
      DrawMeshInstanced.render e renderMeshInstances meshes
          { buffer := dev.buffers.length, length := 0 } =
        (.success,
         [.setVertexBuffer 0 gm.vertexBuffer,
          .setVertexBuffer 1 dev.buffers.length,
          .draw 0 gm.vertexCount 0 0])) := by
  refine ⟨rfl, ?_, ?_, ?_, ?_⟩
  · simp [prepare_instance_buffers, createBufferWithData, castSlice]
  · show ((dev.buffers ++
        [({ label := some "instance data buffer", contents := castSlice enc [],
            usage := { vertex := true, copyDst := true } } : GpuBuffer)]).getD
        dev.buffers.length dummyBuffer) =
      ({ label := some "instance data buffer", contents := [],
         usage := { vertex := true, copyDst := true } } : GpuBuffer)
    rw [getD_append_length]
    rfl
  · intro b fmt cnt hinfo
    simp [DrawMeshInstanced.render, hrmi, hgm, hinfo]
  · intro hinfo
    simp [DrawMeshInstanced.render, hrmi, hgm, hinfo]

/-- Closed instance of `zero_children_zero_instance_draw` at a concrete world,
device and non-indexed mesh. -/
theorem zero_children_zero_instance_draw_witness :
    prepareBufferHost
        { childComp := fun _ => none, transformComp := fun _ => none }
        { buffer := [dummyRecord] } [] = some { buffer := [] } ∧
    (prepare_instance_buffers (fun v => v.toNat)
        [((0 : Entity), { buffer := [] })] { buffers := [] }
        (fun _ => none)).2 0 =
      some { buffer := ({ buffers := [] } : RenderDevice).buffers.length,
             length := 0 } ∧
    (prepare_instance_buffers (fun v => v.toNat)
        [((0 : Entity), { buffer := [] })] { buffers := [] }
        (fun _ => none)).1.buffers.getD
        ({ buffers := [] } : RenderDevice).buffers.length dummyBuffer =
      { label := some "instance data buffer", contents := [],
        usage := { vertex := true, copyDst := true } } ∧
    (∀ b fmt cnt,
      ({ primitiveTopology := .triangleList, layout := 0, vertexBuffer := 8,
         vertexCount := 6, bufferInfo := .nonIndexed } : GpuMesh).bufferInfo =
        .indexed b fmt cnt →
      DrawMeshInstanced.render 0
          (fun e => if e = 0 then
            some { meshAssetId := 0, translation := ⟨0, 0, 0⟩ } else none)
          (fun m => if m = 0 then
            some { primitiveTopology := .triangleList, layout := 0,
                   vertexBuffer := 8, vertexCount := 6,
                   bufferInfo := .nonIndexed } else none)
          { buffer := ({ buffers := [] } : RenderDevice).buffers.length,
            length := 0 } =
        (.success,
         [.setVertexBuffer 0
            ({ primitiveTopology := .triangleList, layout := 0,
               vertexBuffer := 8, vertexCount := 6,
               bufferInfo := .nonIndexed } : GpuMesh).vertexBuffer,
          .setVertexBuffer 1 ({ buffers := [] } : RenderDevice).buffers.length,
          .setIndexBuffer b 0 fmt,
          .drawIndexed 0 cnt 0 0 0])) ∧
    (({ primitiveTopology := .triangleList, layout := 0, vertexBuffer := 8,
        vertexCount := 6, bufferInfo := .nonIndexed } : GpuMesh).bufferInfo =
        .nonIndexed →
      DrawMeshInstanced.render 0
          (fun e => if e = 0 then
            some { meshAssetId := 0, translation := ⟨0, 0, 0⟩ } else none)
          (fun m => if m = 0 then
            some { primitiveTopology := .triangleList, layout := 0,
                   vertexBuffer := 8, vertexCount := 6,
                   bufferInfo := .nonIndexed } else none)
          { buffer := ({ buffers := [] } : RenderDevice).buffers.length,
            length := 0 } =
        (.success,
         [.setVertexBuffer 0
            ({ primitiveTopology := .triangleList, layout := 0,
               vertexBuffer := 8, vertexCount := 6,
               bufferInfo := .nonIndexed } : GpuMesh).vertexBuffer,
          .setVertexBuffer 1 ({ buffers := [] } : RenderDevice).buffers.length,
          .draw 0
            ({ primitiveTopology := .triangleList, layout := 0,
               vertexBuffer := 8, vertexCount := 6,
               bufferInfo := .nonIndexed } : GpuMesh).vertexCount 0 0])) :=
  zero_children_zero_instance_draw
    { childComp := fun _ => none, transformComp := fun _ => none }
    { buffer := [dummyRecord] } (fun v => v.toNat) { buffers := [] }
    (fun _ => none) 0
    (fun e => if e = 0 then
      some { meshAssetId := 0, translation := ⟨0, 0, 0⟩ } else none)
    (fun m => if m = 0 then
      some { primitiveTopology := .triangleList, layout := 0, vertexBuffer := 8,
             vertexCount := 6, bufferInfo := .nonIndexed } else none)
    { meshAssetId := 0, translation := ⟨0, 0, 0⟩ }
    { primitiveTopology := .triangleList, layout := 0, vertexBuffer := 8,
      vertexCount := 6, bufferInfo := .nonIndexed }
    rfl rfl

end Instancing
